import Mathlib

/-!
Shallow embedding of `src/gpx_analyzer.py` (class `GPXAnalyzer`).

Numbers are modelled with `ℚ`; a point's possibly-missing elevation is
`Option ℚ` (pandas `NaN` / gpxpy `None` becomes `none`, and the pandas
null-skipping reductions `max`, `min`, `diff`, `fillna` are modelled
accordingly).  The external geodesic distance function
(`geopy.distance.geodesic(...).meters`) is an abstract parameter
`dist : ℚ × ℚ → ℚ × ℚ → ℚ` receiving the `(latitude, longitude)` pairs the
source passes to it.
-/

namespace GpxAnalyzer

/-- One row of the analyzer's `track_data`: the four fields stored by
`extract_track_data` for every gpx point. -/
structure TrackPoint where
  latitude : ℚ
  longitude : ℚ
  elevation : Option ℚ
  time : Option ℤ
  deriving DecidableEq, Repr

/-- The mutable state of a `GPXAnalyzer` object: `file_path`, the parsed
`gpx` document (tracks → segments → points), the `track_data` frame (its
point columns as a list of rows, and the two derived columns added by
`calculate_metrics`, absent before that call), and the scalar metric
attributes. -/
structure AnalyzerState where
  file_path : String
  gpx : Option (List (List (List TrackPoint)))
  track_data : List TrackPoint
  distance_col : Option (List ℚ)
  cumulative_distance_col : Option (List ℚ)
  total_distance : ℚ
  max_elevation : Option ℚ
  min_elevation : Option ℚ
  elevation_gain : ℚ
  deriving DecidableEq

/-- `coords = list(zip(self.track_data['latitude'], self.track_data['longitude']))`. -/
def coordsOf (td : List TrackPoint) : List (ℚ × ℚ) :=
  td.map fun p => (p.latitude, p.longitude)

/-- `distances = [geodesic(coords[i], coords[i+1]).meters for i in range(len(coords)-1)]`. -/
def stepDistances (dist : ℚ × ℚ → ℚ × ℚ → ℚ) (td : List TrackPoint) : List ℚ :=
  List.zipWith dist (coordsOf td) (coordsOf td).tail

/-- Helper for pandas `Series.cumsum`: running sums continuing from `acc`. -/
def cumsumFrom (acc : ℚ) : List ℚ → List ℚ
  | [] => []
  | x :: xs => (acc + x) :: cumsumFrom (acc + x) xs

/-- pandas `Series.cumsum()`: inclusive prefix sums. -/
def cumsum (xs : List ℚ) : List ℚ := cumsumFrom 0 xs

/-- pandas `Series.diff()` on the elevation column: first entry `NaN`, then
`e[i] - e[i-1]`, which is `NaN` whenever either side is missing. -/
def diffOpt : List (Option ℚ) → List (Option ℚ)
  | [] => []
  | e :: es =>
    none :: List.zipWith (fun a b =>
      match a, b with
      | some x, some y => some (y - x)
      | _, _ => none) (e :: es) es

/-- The present (non-null) values of the elevation column. -/
def presentElevs (es : List (Option ℚ)) : List ℚ := es.filterMap id

/-- pandas `Series.max()`: maximum over non-null entries, `NaN` (here `none`)
when no entry is present. -/
def seriesMax (es : List (Option ℚ)) : Option ℚ :=
  match presentElevs es with
  | [] => none
  | x :: xs => some (xs.foldl max x)

/-- pandas `Series.min()`: minimum over non-null entries, `NaN` (here `none`)
when no entry is present. -/
def seriesMin (es : List (Option ℚ)) : Option ℚ :=
  match presentElevs es with
  | [] => none
  | x :: xs => some (xs.foldl min x)

/-- `GPXAnalyzer.calculate_metrics` (lines 51–67): computes the pairwise
geodesic distances, `total_distance`, the `distance` and
`cumulative_distance` columns (`[0] + distances` and its cumsum), the
elevation extrema (null-skipping), and
`elevation_gain = max(0, elevation.diff().fillna(0).clip(lower=0).sum())`. -/
def calculate_metrics (dist : ℚ × ℚ → ℚ × ℚ → ℚ) (s : AnalyzerState) : AnalyzerState :=
  let distances := stepDistances dist s.track_data
  let elevs := s.track_data.map fun p => p.elevation
  { s with
    total_distance := distances.sum
    distance_col := some ((0 : ℚ) :: distances)
    cumulative_distance_col := some (cumsum ((0 : ℚ) :: distances))
    max_elevation := seriesMax elevs
    min_elevation := seriesMin elevs
    elevation_gain := max 0 (((diffOpt elevs).map fun d => max 0 (d.getD 0)).sum) }

/-- The specification's elevation-gain formula, written from the spec's own
words: sum over consecutive point pairs of `max(0, delta)` taken only over
pairs where both elevations are present; a pair with a missing elevation on
either side contributes `0`. -/
def gainSpec (es : List (Option ℚ)) : ℚ :=
  (List.zipWith (fun a b =>
    match a, b with
    | some x, some y => max 0 (y - x)
    | _, _ => 0) es es.tail).sum

/-- What the attempt to open and parse the gpx file can yield: the path does
not exist (`FileNotFoundError`), parsing raises (`gpxpy` parse exception), or
a parsed document as its list of tracks, each a list of segments, each a list
of points. -/
inductive LoadInput where
  | notFound : LoadInput
  | parseFailure : String → LoadInput
  | parsed : List (List (List TrackPoint)) → LoadInput
  deriving DecidableEq

/-- `extract_track_data`'s triple loop: flatten tracks → segments → points in
file order. -/
def flattenPoints (tracks : List (List (List TrackPoint))) : List TrackPoint :=
  tracks.flatten.flatten

/-- Observable outcome of one program run: the process exit code, the
user-facing text that reached the console (stdout or stderr), and whether the
two output artifacts (the saved `track_map.html` map and the on-screen
elevation chart) were produced. -/
structure RunOutcome where
  exitCode : Nat
  printed : List String
  mapWritten : Bool
  chartShown : Bool
  deriving DecidableEq

/-- `GPXAnalyzer.__init__(file_path)`: stores the path; `gpx` and
`track_data` hold no data yet; `total_distance = 0.0`. -/
def mkState (fp : String) : AnalyzerState :=
  { file_path := fp
    gpx := none
    track_data := []
    distance_col := none
    cumulative_distance_col := none
    total_distance := 0
    max_elevation := none
    min_elevation := none
    elevation_gain := 0 }

/-- `run_analysis` as driven by `__main__`: `load_gpx_file` prints a message
and calls `exit(1)` on `FileNotFoundError` or any other exception (including
the `ValueError` it raises itself when the parsed file has no tracks);
`extract_track_data` raises an uncaught `ValueError` when there are no points,
which terminates the interpreter with status 1 after the traceback text is
written to the console; otherwise `calculate_metrics` runs, the four metric
lines are printed, the map document is saved and the chart is shown, and the
process finishes with status 0. -/
def run_analysis (dist : ℚ × ℚ → ℚ × ℚ → ℚ) (fp : String)
    (input : LoadInput) : RunOutcome :=
  match input with
  | .notFound =>
    { exitCode := 1
      printed := ["Файл " ++ fp ++ " не найден."]
      mapWritten := false
      chartShown := false }
  | .parseFailure msg =>
    { exitCode := 1
      printed := ["Ошибка при загрузке GPX-файла: " ++ msg]
      mapWritten := false
      chartShown := false }
  | .parsed tracks =>
    if tracks = [] then
      { exitCode := 1
        printed := ["Ошибка при загрузке GPX-файла: GPX-файл не содержит треков."]
        mapWritten := false
        chartShown := false }
    else
      let pts := flattenPoints tracks
      if pts = [] then
        { exitCode := 1
          printed := ["ValueError: GPX-файл не содержит точек."]
          mapWritten := false
          chartShown := false }
      else
        let s := calculate_metrics dist
          { mkState fp with gpx := some tracks, track_data := pts }
        { exitCode := 0
          printed :=
            [ "Общее расстояние маршрута: " ++ toString s.total_distance ++ " м"
            , "Максимальная высота: " ++ toString s.max_elevation ++ " м"
            , "Минимальная высота: " ++ toString s.min_elevation ++ " м"
            , "Набор высоты: " ++ toString s.elevation_gain ++ " м"
            , "Карта сохранена в файл track_map.html." ]
          mapWritten := true
          chartShown := true }

/-- The three failure classes of the spec's error taxonomy, expressed on
`LoadInput`: `NotFound`, `ParseError`, and `EmptyTrack` (a parsed file with
zero tracks or zero points). -/
def isFailureInput : LoadInput → Prop
  | .notFound => True
  | .parseFailure _ => True
  | .parsed tracks => tracks = [] ∨ flattenPoints tracks = []

/-- A concrete three-point track used to instantiate the theorems: elevations
`100`, missing, `150`. -/
def samplePts : List TrackPoint :=
  [ { latitude := 0, longitude := 0, elevation := some 100, time := none }
  , { latitude := 0, longitude := 1, elevation := none, time := none }
  , { latitude := 0, longitude := 2, elevation := some 150, time := none } ]

/-- A concrete analyzer state holding `samplePts`, as produced by
`extract_track_data` on a one-track one-segment file. -/
def sampleState : AnalyzerState :=
  { mkState "track.gpx" with gpx := some [[samplePts]], track_data := samplePts }

/-- A concrete analyzer state with the same coordinates as `sampleState` but
different elevations. -/
def sampleStateFlat : AnalyzerState :=
  { mkState "flat.gpx" with
    track_data := samplePts.map fun p => { p with elevation := some 0 } }

/-- A second concrete state sharing `sampleState`'s track data but differing
in the other attributes. -/
def sampleState2 : AnalyzerState :=
  { sampleState with file_path := "other.gpx", total_distance := 5 }

/-- A one-point track. -/
def solePoint : TrackPoint :=
  { latitude := 0, longitude := 0, elevation := some 100, time := none }

/-- A concrete analyzer state holding only `solePoint`. -/
def singleState : AnalyzerState :=
  { mkState "one.gpx" with track_data := [solePoint] }

/-- The constant-zero distance function, for instantiating theorems. -/
def distZero : ℚ × ℚ → ℚ × ℚ → ℚ := fun _ _ => 0

/-- The constant-one distance function, for instantiating theorems. -/
def distOne : ℚ × ℚ → ℚ × ℚ → ℚ := fun _ _ => 1

/-! Projection lemmas: the six attributes set by `calculate_metrics`. -/

lemma calc_total_eq (dist : ℚ × ℚ → ℚ × ℚ → ℚ) (s : AnalyzerState) :
    (calculate_metrics dist s).total_distance = (stepDistances dist s.track_data).sum := rfl

lemma calc_distance_col_eq (dist : ℚ × ℚ → ℚ × ℚ → ℚ) (s : AnalyzerState) :
    (calculate_metrics dist s).distance_col
      = some ((0 : ℚ) :: stepDistances dist s.track_data) := rfl

lemma calc_cumulative_eq (dist : ℚ × ℚ → ℚ × ℚ → ℚ) (s : AnalyzerState) :
    (calculate_metrics dist s).cumulative_distance_col
      = some (cumsum ((0 : ℚ) :: stepDistances dist s.track_data)) := rfl

lemma calc_max_eq (dist : ℚ × ℚ → ℚ × ℚ → ℚ) (s : AnalyzerState) :
    (calculate_metrics dist s).max_elevation
      = seriesMax (s.track_data.map fun p => p.elevation) := rfl

lemma calc_min_eq (dist : ℚ × ℚ → ℚ × ℚ → ℚ) (s : AnalyzerState) :
    (calculate_metrics dist s).min_elevation
      = seriesMin (s.track_data.map fun p => p.elevation) := rfl

lemma calc_gain_eq (dist : ℚ × ℚ → ℚ × ℚ → ℚ) (s : AnalyzerState) :
    (calculate_metrics dist s).elevation_gain
      = max 0 (((diffOpt (s.track_data.map fun p => p.elevation)).map
          fun d => max 0 (d.getD 0)).sum) := rfl

/-! Helper lemmas on folds, prefix sums and zips. -/

lemma le_foldl_max (l : List ℚ) : ∀ a : ℚ, a ≤ l.foldl max a := by
  induction l with
  | nil => intro a; exact le_refl a
  | cons x xs ih =>
    intro a
    rw [List.foldl_cons]
    exact le_trans (le_max_left a x) (ih (max a x))

lemma mem_le_foldl_max (l : List ℚ) : ∀ a b : ℚ, b ∈ l → b ≤ l.foldl max a := by
  induction l with
  | nil => intro a b hb; simp at hb
  | cons x xs ih =>
    intro a b hb
    rw [List.foldl_cons]
    rcases List.mem_cons.mp hb with h | h
    · subst h
      exact le_trans (le_max_right a b) (le_foldl_max xs (max a b))
    · exact ih (max a x) b h

lemma foldl_min_le (l : List ℚ) : ∀ a : ℚ, l.foldl min a ≤ a := by
  induction l with
  | nil => intro a; exact le_refl a
  | cons x xs ih =>
    intro a
    rw [List.foldl_cons]
    exact le_trans (ih (min a x)) (min_le_left a x)

lemma foldl_min_le_mem (l : List ℚ) : ∀ a b : ℚ, b ∈ l → l.foldl min a ≤ b := by
  induction l with
  | nil => intro a b hb; simp at hb
  | cons x xs ih =>
    intro a b hb
    rw [List.foldl_cons]
    rcases List.mem_cons.mp hb with h | h
    · subst h
      exact le_trans (foldl_min_le xs (min a b)) (min_le_right a b)
    · exact ih (min a x) b h

lemma cumsumFrom_length (l : List ℚ) : ∀ acc : ℚ, (cumsumFrom acc l).length = l.length := by
  induction l with
  | nil => intro acc; rfl
  | cons x xs ih => intro acc; simp [cumsumFrom, ih]

lemma cumsumFrom_getD (l : List ℚ) :
    ∀ (acc : ℚ) (i : ℕ), i < l.length →
      (cumsumFrom acc l).getD i 0 = acc + (l.take (i + 1)).sum := by
  induction l with
  | nil => intro acc i hi; simp at hi
  | cons x xs ih =>
    intro acc i hi
    cases i with
    | zero => simp [cumsumFrom]
    | succ j =>
      have hj : j < xs.length := by
        have := Nat.lt_of_succ_lt_succ hi
        simpa using this
      rw [show cumsumFrom acc (x :: xs) = (acc + x) :: cumsumFrom (acc + x) xs from rfl]
      rw [List.getD_cons_succ, ih (acc + x) j hj]
      simp [List.take_succ_cons, add_assoc]

lemma cumsum_zero_cons (ds : List ℚ) :
    cumsum ((0 : ℚ) :: ds) = (0 : ℚ) :: cumsumFrom 0 ds := by
  simp [cumsum, cumsumFrom]

lemma cs_entry (ds : List ℚ) (i : ℕ) (hi : i ≤ ds.length) :
    ((0 : ℚ) :: cumsumFrom 0 ds).getD i 0 = (ds.take i).sum := by
  cases i with
  | zero => simp
  | succ j =>
    rw [List.getD_cons_succ]
    rw [cumsumFrom_getD ds 0 j (Nat.lt_of_succ_le hi), zero_add]

lemma sum_take_succ_getD (l : List ℚ) :
    ∀ j : ℕ, j < l.length → (l.take (j + 1)).sum = (l.take j).sum + l.getD j 0 := by
  induction l with
  | nil => intro j hj; simp at hj
  | cons x xs ih =>
    intro j hj
    cases j with
    | zero => simp
    | succ k =>
      have hk : k < xs.length := by
        have := Nat.lt_of_succ_lt_succ hj
        simpa using this
      simp [List.take_succ_cons, ih k hk, add_assoc]

lemma stepDistances_length (dist : ℚ × ℚ → ℚ × ℚ → ℚ) (td : List TrackPoint) :
    (stepDistances dist td).length = td.length - 1 := by
  unfold stepDistances coordsOf
  rw [List.length_zipWith]
  simp only [List.length_tail, List.length_map]
  omega

lemma chain_cumsumFrom (l : List ℚ) :
    ∀ acc : ℚ, (∀ x ∈ l, 0 ≤ x) → List.Chain' (· ≤ ·) (acc :: cumsumFrom acc l) := by
  induction l with
  | nil => intro acc _; simp [cumsumFrom]
  | cons x xs ih =>
    intro acc h
    rw [show cumsumFrom acc (x :: xs) = (acc + x) :: cumsumFrom (acc + x) xs from rfl]
    refine List.chain'_cons.mpr ⟨?_, ?_⟩
    · have hx : 0 ≤ x := h x (List.mem_cons_self x xs)
      linarith
    · exact ih (acc + x) (fun y hy => h y (List.mem_cons_of_mem x hy))

lemma getLast_cumsumFrom (l : List ℚ) :
    ∀ acc : ℚ, (acc :: cumsumFrom acc l).getLast? = some (acc + l.sum) := by
  induction l with
  | nil => intro acc; simp [cumsumFrom]
  | cons x xs ih =>
    intro acc
    rw [show cumsumFrom acc (x :: xs) = (acc + x) :: cumsumFrom (acc + x) xs from rfl]
    rw [List.getLast?_cons_cons, ih (acc + x)]
    simp [add_assoc]

lemma zipWith_dist_nonneg (dist : ℚ × ℚ → ℚ × ℚ → ℚ) (hd : ∀ a b, 0 ≤ dist a b) :
    ∀ (l l' : List (ℚ × ℚ)) (x : ℚ), x ∈ List.zipWith dist l l' → 0 ≤ x := by
  intro l
  induction l with
  | nil => intro l' x hx; simp at hx
  | cons a l ih =>
    intro l' x hx
    cases l' with
    | nil => simp at hx
    | cons b l' =>
      rw [List.zipWith_cons_cons] at hx
      rcases List.mem_cons.mp hx with h | h
      · subst h; exact hd a b
      · exact ih l' x h

lemma map_clip_zipWith (l l' : List (Option ℚ)) :
    (List.zipWith (fun a b =>
        match a, b with
        | some x, some y => some (y - x)
        | _, _ => none) l l').map (fun d => max (0 : ℚ) (d.getD 0))
      = List.zipWith (fun a b =>
          match a, b with
          | some x, some y => max 0 (y - x)
          | _, _ => 0) l l' := by
  induction l generalizing l' with
  | nil => simp
  | cons a l ih =>
    cases l' with
    | nil => simp
    | cons b l' =>
      rw [List.zipWith_cons_cons, List.zipWith_cons_cons, List.map_cons, ih]
      cases a <;> cases b <;> simp

lemma zip_clip_nonneg :
    ∀ (l l' : List (Option ℚ)) (x : ℚ),
      x ∈ List.zipWith (fun a b =>
        match a, b with
        | some x, some y => max (0 : ℚ) (y - x)
        | _, _ => 0) l l' → 0 ≤ x := by
  intro l
  induction l with
  | nil => intro l' x hx; simp at hx
  | cons a l ih =>
    intro l' x hx
    cases l' with
    | nil => simp at hx
    | cons b l' =>
      rw [List.zipWith_cons_cons] at hx
      rcases List.mem_cons.mp hx with h | h
      · subst h
        cases a <;> cases b <;> first | exact le_refl 0 | exact le_max_left 0 _
      · exact ih l' x h

/-- C1: for every track, `elevation_gain` as computed by `calculate_metrics`
(`max(0, elevation.diff().fillna(0).clip(lower=0).sum())`) equals the sum over
consecutive point pairs of `max(0, elevation[i+1] - elevation[i])` taken only
over pairs where both elevations are present; a pair with a missing elevation
on either side contributes `0` (missing is not treated as elevation `0`), and
a negative delta contributes `0`. -/
theorem calculate_metrics_elevation_gain_eq_gainSpec
    (dist : ℚ × ℚ → ℚ × ℚ → ℚ) (s : AnalyzerState) :
    (calculate_metrics dist s).elevation_gain
      = gainSpec (s.track_data.map fun p => p.elevation) := by
  rw [calc_gain_eq]
  generalize (s.track_data.map fun p => p.elevation) = es
  cases es with
  | nil => simp [diffOpt, gainSpec]
  | cons e tl =>
    unfold diffOpt gainSpec
    rw [List.map_cons, List.sum_cons, map_clip_zipWith]
    simp only [Option.getD_none, max_self, zero_add, List.tail_cons]
    exact max_eq_right (List.sum_nonneg fun x hx => zip_clip_nonneg (e :: tl) tl x hx)

/-- C2: `calculate_metrics` does not change the input track: the `track_data`
rows (each point's latitude, longitude, elevation and time) are exactly the
ones in the input state, as are the stored `file_path` and parsed `gpx`
document; the metrics are placed in fresh attributes/columns. -/
theorem calculate_metrics_preserves_track_data
    (dist : ℚ × ℚ → ℚ × ℚ → ℚ) (s : AnalyzerState) :
    (calculate_metrics dist s).track_data = s.track_data ∧
    (calculate_metrics dist s).file_path = s.file_path ∧
    (calculate_metrics dist s).gpx = s.gpx :=
  ⟨rfl, rfl, rfl⟩

/-- C7: a single-point track yields zero total distance, zero elevation gain,
cumulative-distance column `[0]`, and elevation extrema equal to the sole
point's elevation (`none` when it is absent). -/
theorem calculate_metrics_single_point
    (dist : ℚ × ℚ → ℚ × ℚ → ℚ) (s : AnalyzerState) (p : TrackPoint)
    (h : s.track_data = [p]) :
    (calculate_metrics dist s).total_distance = 0 ∧
    (calculate_metrics dist s).elevation_gain = 0 ∧
    (calculate_metrics dist s).cumulative_distance_col = some [0] ∧
    (calculate_metrics dist s).max_elevation = p.elevation ∧
    (calculate_metrics dist s).min_elevation = p.elevation := by
  have hsd : stepDistances dist s.track_data = [] := by
    rw [h]; rfl
  refine ⟨?_, ?_, ?_, ?_, ?_⟩
  · rw [calc_total_eq, hsd]; rfl
  · rw [calc_gain_eq, h]
    simp [diffOpt]
  · rw [calc_cumulative_eq, hsd, cumsum_zero_cons]; rfl
  · rw [calc_max_eq, h]
    cases hpe : p.elevation <;> simp [seriesMax, presentElevs, hpe]
  · rw [calc_min_eq, h]
    cases hpe : p.elevation <;> simp [seriesMin, presentElevs, hpe]

/-- C7 witness: the single-point theorem instantiated at the concrete
one-point state `singleState`. -/
theorem calculate_metrics_single_point_witness :
    (calculate_metrics distZero singleState).total_distance = 0 ∧
    (calculate_metrics distZero singleState).elevation_gain = 0 ∧
    (calculate_metrics distZero singleState).cumulative_distance_col = some [0] ∧
    (calculate_metrics distZero singleState).max_elevation = solePoint.elevation ∧
    (calculate_metrics distZero singleState).min_elevation = solePoint.elevation :=
  calculate_metrics_single_point distZero singleState solePoint rfl

/-- C8: the per-step distances are computed from the latitude/longitude pairs
only, so two states whose tracks have identical coordinate sequences (however
their elevations differ) get identical `stepDistances`, and hence identical
`total_distance`, `distance` column and `cumulative_distance` column. -/
theorem stepDistances_depend_only_on_coords
    (dist : ℚ × ℚ → ℚ × ℚ → ℚ) (s1 s2 : AnalyzerState)
    (h : coordsOf s1.track_data = coordsOf s2.track_data) :
    stepDistances dist s1.track_data = stepDistances dist s2.track_data ∧
    (calculate_metrics dist s1).total_distance = (calculate_metrics dist s2).total_distance ∧
    (calculate_metrics dist s1).distance_col = (calculate_metrics dist s2).distance_col ∧
    (calculate_metrics dist s1).cumulative_distance_col
      = (calculate_metrics dist s2).cumulative_distance_col := by
  have hs : stepDistances dist s1.track_data = stepDistances dist s2.track_data := by
    unfold stepDistances
    rw [h]
  exact ⟨hs,
    by rw [calc_total_eq, calc_total_eq, hs],
    by rw [calc_distance_col_eq, calc_distance_col_eq, hs],
    by rw [calc_cumulative_eq, calc_cumulative_eq, hs]⟩

/-- C8 witness: `sampleState` and `sampleStateFlat` share coordinates but not
elevations, and get the same distance outputs. -/
theorem stepDistances_depend_only_on_coords_witness :
    stepDistances distOne sampleState.track_data
      = stepDistances distOne sampleStateFlat.track_data ∧
    (calculate_metrics distOne sampleState).total_distance
      = (calculate_metrics distOne sampleStateFlat).total_distance ∧
    (calculate_metrics distOne sampleState).distance_col
      = (calculate_metrics distOne sampleStateFlat).distance_col ∧
    (calculate_metrics distOne sampleState).cumulative_distance_col
      = (calculate_metrics distOne sampleStateFlat).cumulative_distance_col :=
  stepDistances_depend_only_on_coords distOne sampleState sampleStateFlat (by decide)

/-- C9: `calculate_metrics` is deterministic and depends only on the point
data: two states with equal `track_data` (whatever their other attributes)
receive equal `total_distance`, `distance` and `cumulative_distance` columns,
elevation extrema and `elevation_gain`. -/
theorem calculate_metrics_deterministic
    (dist : ℚ × ℚ → ℚ × ℚ → ℚ) (s1 s2 : AnalyzerState)
    (h : s1.track_data = s2.track_data) :
    (calculate_metrics dist s1).total_distance = (calculate_metrics dist s2).total_distance ∧
    (calculate_metrics dist s1).distance_col = (calculate_metrics dist s2).distance_col ∧
    (calculate_metrics dist s1).cumulative_distance_col
      = (calculate_metrics dist s2).cumulative_distance_col ∧
    (calculate_metrics dist s1).max_elevation = (calculate_metrics dist s2).max_elevation ∧
    (calculate_metrics dist s1).min_elevation = (calculate_metrics dist s2).min_elevation ∧
    (calculate_metrics dist s1).elevation_gain = (calculate_metrics dist s2).elevation_gain := by
  refine ⟨?_, ?_, ?_, ?_, ?_, ?_⟩
  · rw [calc_total_eq, calc_total_eq, h]
  · rw [calc_distance_col_eq, calc_distance_col_eq, h]
  · rw [calc_cumulative_eq, calc_cumulative_eq, h]
  · rw [calc_max_eq, calc_max_eq, h]
  · rw [calc_min_eq, calc_min_eq, h]
  · rw [calc_gain_eq, calc_gain_eq, h]

/-- C9 witness: the determinism theorem at two concrete states sharing track
data but differing in `file_path` and `total_distance`. -/
theorem calculate_metrics_deterministic_witness :
    (calculate_metrics distOne sampleState).total_distance
      = (calculate_metrics distOne sampleState2).total_distance ∧
    (calculate_metrics distOne sampleState).distance_col
      = (calculate_metrics distOne sampleState2).distance_col ∧
    (calculate_metrics distOne sampleState).cumulative_distance_col
      = (calculate_metrics distOne sampleState2).cumulative_distance_col ∧
    (calculate_metrics distOne sampleState).max_elevation
      = (calculate_metrics distOne sampleState2).max_elevation ∧
    (calculate_metrics distOne sampleState).min_elevation
      = (calculate_metrics distOne sampleState2).min_elevation ∧
    (calculate_metrics distOne sampleState).elevation_gain
      = (calculate_metrics distOne sampleState2).elevation_gain :=
  calculate_metrics_deterministic distOne sampleState sampleState2 rfl

/-- C10: `calculate_metrics` is idempotent on the analyzer state: running it a
second time recomputes every derived attribute from the unchanged point
columns and yields exactly the same state. -/
theorem calculate_metrics_idempotent
    (dist : ℚ × ℚ → ℚ × ℚ → ℚ) (s : AnalyzerState) :
    calculate_metrics dist (calculate_metrics dist s) = calculate_metrics dist s := rfl

/-- C3: for every non-empty track of `n` points, the `cumulative_distance`
column has length `n`, starts at `0`, satisfies
`cumulative[i] = cumulative[i-1] + stepDistances[i-1]` for `1 ≤ i ≤ n-1`, and
`total_distance` equals the sum of the `n-1` step distances exactly. -/
theorem calculate_metrics_cumulative_prefix_sum
    (dist : ℚ × ℚ → ℚ × ℚ → ℚ) (s : AnalyzerState) (h : s.track_data ≠ []) :
    ∃ cs, (calculate_metrics dist s).cumulative_distance_col = some cs ∧
      cs.length = s.track_data.length ∧
      cs.getD 0 0 = 0 ∧
      (∀ i, 1 ≤ i → i < cs.length →
        cs.getD i 0 = cs.getD (i - 1) 0 + (stepDistances dist s.track_data).getD (i - 1) 0) ∧
      (calculate_metrics dist s).total_distance = (stepDistances dist s.track_data).sum := by
  set ds := stepDistances dist s.track_data with hds
  have hlen : ds.length = s.track_data.length - 1 := stepDistances_length dist s.track_data
  have hpos : 0 < s.track_data.length := List.length_pos.mpr h
  refine ⟨cumsum ((0 : ℚ) :: ds), calc_cumulative_eq dist s, ?_, ?_, ?_, calc_total_eq dist s⟩
  · rw [cumsum_zero_cons]
    simp only [List.length_cons, cumsumFrom_length]
    omega
  · rw [cumsum_zero_cons]
    rfl
  · intro i h1 hi
    rw [cumsum_zero_cons] at hi ⊢
    simp only [List.length_cons, cumsumFrom_length] at hi
    obtain ⟨j, rfl⟩ : ∃ j, i = j + 1 := ⟨i - 1, by omega⟩
    have hj1 : j + 1 ≤ ds.length := by omega
    have hj : j < ds.length := by omega
    rw [cs_entry ds (j + 1) hj1]
    simp only [Nat.add_sub_cancel]
    rw [cs_entry ds j (le_of_lt hj)]
    exact sum_take_succ_getD ds j hj

/-- C3 witness: the prefix-sum theorem instantiated at the concrete three-point
state `sampleState`. -/
theorem calculate_metrics_cumulative_prefix_sum_witness :
    ∃ cs, (calculate_metrics distOne sampleState).cumulative_distance_col = some cs ∧
      cs.length = sampleState.track_data.length ∧
      cs.getD 0 0 = 0 ∧
      (∀ i, 1 ≤ i → i < cs.length →
        cs.getD i 0 = cs.getD (i - 1) 0
          + (stepDistances distOne sampleState.track_data).getD (i - 1) 0) ∧
      (calculate_metrics distOne sampleState).total_distance
        = (stepDistances distOne sampleState.track_data).sum :=
  calculate_metrics_cumulative_prefix_sum distOne sampleState (by decide)

/-- C4: the elevation extrema bound every present elevation
(`min_elevation ≤ e ≤ max_elevation` for each point whose elevation is
present), and when no point has an elevation both extrema are unset (`none`)
rather than a crash. -/
theorem calculate_metrics_elevation_extrema
    (dist : ℚ × ℚ → ℚ × ℚ → ℚ) (s : AnalyzerState) :
    (∀ p ∈ s.track_data, ∀ e : ℚ, p.elevation = some e →
      ∃ mn mx, (calculate_metrics dist s).min_elevation = some mn ∧
        (calculate_metrics dist s).max_elevation = some mx ∧ mn ≤ e ∧ e ≤ mx) ∧
    ((∀ p ∈ s.track_data, p.elevation = none) →
      (calculate_metrics dist s).max_elevation = none ∧
      (calculate_metrics dist s).min_elevation = none) := by
  constructor
  · intro p hp e he
    have hmem : e ∈ presentElevs (s.track_data.map fun q => q.elevation) := by
      unfold presentElevs
      refine List.mem_filterMap.mpr ⟨some e, ?_, rfl⟩
      exact List.mem_map.mpr ⟨p, hp, he⟩
    cases hpe : presentElevs (s.track_data.map fun q => q.elevation) with
    | nil => rw [hpe] at hmem; simp at hmem
    | cons x xs =>
      rw [hpe] at hmem
      refine ⟨xs.foldl min x, xs.foldl max x, ?_, ?_, ?_, ?_⟩
      · rw [calc_min_eq]
        unfold seriesMin
        rw [hpe]
      · rw [calc_max_eq]
        unfold seriesMax
        rw [hpe]
      · rcases List.mem_cons.mp hmem with hh | hh
        · subst hh; exact foldl_min_le xs e
        · exact foldl_min_le_mem xs x e hh
      · rcases List.mem_cons.mp hmem with hh | hh
        · subst hh; exact le_foldl_max xs e
        · exact mem_le_foldl_max xs x e hh
  · intro hall
    have hnil : presentElevs (s.track_data.map fun q => q.elevation) = [] := by
      unfold presentElevs
      rw [List.filterMap_eq_nil_iff]
      intro a ha
      rcases List.mem_map.mp ha with ⟨p, hp, rfl⟩
      simp [hall p hp]
    constructor
    · rw [calc_max_eq]; unfold seriesMax; rw [hnil]
    · rw [calc_min_eq]; unfold seriesMin; rw [hnil]

/-- C4 witness: the extrema theorem applied to the first point of
`sampleState`, whose elevation `100` is present. -/
theorem calculate_metrics_elevation_extrema_witness :
    ∃ mn mx, (calculate_metrics distOne sampleState).min_elevation = some mn ∧
      (calculate_metrics distOne sampleState).max_elevation = some mx ∧
      mn ≤ (100 : ℚ) ∧ (100 : ℚ) ≤ mx :=
  (calculate_metrics_elevation_extrema distOne sampleState).1
    { latitude := 0, longitude := 0, elevation := some 100, time := none }
    (by decide) 100 rfl

/-- C6: every step distance is non-negative (given that the geodesic distance
function is non-negative), `elevation_gain ≥ 0`, the `cumulative_distance`
column is non-decreasing, and its last element equals `total_distance`
exactly. -/
theorem calculate_metrics_nonneg_monotone
    (dist : ℚ × ℚ → ℚ × ℚ → ℚ) (s : AnalyzerState)
    (hd : ∀ a b, 0 ≤ dist a b) :
    (∀ x ∈ stepDistances dist s.track_data, 0 ≤ x) ∧
    0 ≤ (calculate_metrics dist s).elevation_gain ∧
    ∃ cs, (calculate_metrics dist s).cumulative_distance_col = some cs ∧
      List.Chain' (· ≤ ·) cs ∧
      cs.getLast? = some ((calculate_metrics dist s).total_distance) := by
  have hsd : ∀ x ∈ stepDistances dist s.track_data, 0 ≤ x := by
    intro x hx
    exact zipWith_dist_nonneg dist hd _ _ x hx
  refine ⟨hsd, ?_, cumsum ((0 : ℚ) :: stepDistances dist s.track_data),
    calc_cumulative_eq dist s, ?_, ?_⟩
  · rw [calc_gain_eq]
    exact le_max_left 0 _
  · rw [cumsum_zero_cons]
    exact chain_cumsumFrom _ 0 hsd
  · rw [cumsum_zero_cons, getLast_cumsumFrom, zero_add, calc_total_eq]

/-- C6 witness: the non-negativity/monotonicity theorem at the constant-one
distance function and the concrete state `sampleState`. -/
theorem calculate_metrics_nonneg_monotone_witness :
    (∀ x ∈ stepDistances distOne sampleState.track_data, 0 ≤ x) ∧
    0 ≤ (calculate_metrics distOne sampleState).elevation_gain ∧
    ∃ cs, (calculate_metrics distOne sampleState).cumulative_distance_col = some cs ∧
      List.Chain' (· ≤ ·) cs ∧
      cs.getLast? = some ((calculate_metrics distOne sampleState).total_distance) :=
  calculate_metrics_nonneg_monotone distOne sampleState (fun _ _ => zero_le_one)

/-- C5: each of the three failures — missing file, parse error, and empty
track (a parsed file with zero tracks or zero points) — is terminal: a
user-facing message is printed, the process exits with a non-zero status, and
neither output artifact (map document, chart) is produced; and every run
either completes with exit status `0` and both artifacts produced, or aborts
with a non-zero status and no artifact produced. -/
theorem run_analysis_failures_terminal
    (dist : ℚ × ℚ → ℚ × ℚ → ℚ) (fp : String) (input : LoadInput) :
    (isFailureInput input →
      (run_analysis dist fp input).exitCode ≠ 0 ∧
      (run_analysis dist fp input).mapWritten = false ∧
      (run_analysis dist fp input).chartShown = false ∧
      (run_analysis dist fp input).printed ≠ []) ∧
    (((run_analysis dist fp input).exitCode = 0 ∧
      (run_analysis dist fp input).mapWritten = true ∧
      (run_analysis dist fp input).chartShown = true) ∨
     ((run_analysis dist fp input).exitCode ≠ 0 ∧
      (run_analysis dist fp input).mapWritten = false ∧
      (run_analysis dist fp input).chartShown = false)) := by
  cases input with
  | notFound => exact ⟨fun _ => ⟨by simp [run_analysis], rfl, rfl, by simp [run_analysis]⟩,
      Or.inr ⟨by simp [run_analysis], rfl, rfl⟩⟩
  | parseFailure msg =>
    exact ⟨fun _ => ⟨by simp [run_analysis], rfl, rfl, by simp [run_analysis]⟩,
      Or.inr ⟨by simp [run_analysis], rfl, rfl⟩⟩
  | parsed tracks =>
    by_cases h1 : tracks = []
    · refine ⟨fun _ => ?_, Or.inr ?_⟩ <;>
        simp [run_analysis, h1]
    · by_cases h2 : flattenPoints tracks = []
      · refine ⟨fun _ => ?_, Or.inr ?_⟩ <;>
          simp [run_analysis, h1, h2]
      · refine ⟨fun hf => ?_, Or.inl ?_⟩
        · rcases hf with hf | hf
          · exact absurd hf h1
          · exact absurd hf h2
        · simp [run_analysis, h1, h2]

/-- C5 witness: the terminal-failure theorem at the `notFound` input. -/
theorem run_analysis_failures_terminal_witness :
    (run_analysis distOne "track.gpx" LoadInput.notFound).exitCode ≠ 0 ∧
    (run_analysis distOne "track.gpx" LoadInput.notFound).mapWritten = false ∧
    (run_analysis distOne "track.gpx" LoadInput.notFound).chartShown = false ∧
    (run_analysis distOne "track.gpx" LoadInput.notFound).printed ≠ [] :=
  (run_analysis_failures_terminal distOne "track.gpx" LoadInput.notFound).1 trivial

end GpxAnalyzer
